import Mathlib

/-!
Shallow embedding of the Deno podcast JSON → RSS converter (`mod.ts`).

JavaScript numbers are modelled as rationals (`ℚ`), JS `null`/`undefined` as
`Option`, thrown errors as `Except String` carrying the error message, and the
external runtime functions (`decodeURIComponent`, `fetch` together with
`Response.json`) as an explicit environment record.  The npm `rss` package is
external code: we model the value handed to it (the feed configuration object
and the list of item objects) rather than its XML serializer.
-/

deriving instance DecidableEq for Except

/-- JavaScript `a || b` on `string | undefined` values: `a` unless it is
`undefined` or the empty string (the only falsy strings). -/
def jsOrS (a b : Option String) : Option String :=
  match a with
  | some s => if s = "" then b else some s
  | none => b

/-- JavaScript `a || b` where `b` is a plain string, so the result is a string. -/
def jsOrStr (a : Option String) (b : String) : String :=
  match a with
  | some s => if s = "" then b else s
  | none => b

/-- Clamp one bound of JavaScript `Array.prototype.slice`: a negative index
counts from the end (clamped below by 0), a non-negative one is clamped above
by the array length. -/
def jsSliceBound (len : Nat) (i : Int) : Nat :=
  if i < 0 then ((len : Int) + i).toNat else min i.toNat len

/-- JavaScript `l.slice(s, e)`: the elements from clamped index `s`
(inclusive) to clamped index `e` (exclusive). -/
def jsSlice {α : Type} (l : List α) (s e : Int) : List α :=
  (l.take (jsSliceBound l.length e)).drop (jsSliceBound l.length s)

/-- `interface Episode` of `mod.ts` (`fundings`-like unknown arrays are not
present here; `image_url` is optional). -/
structure Episode where
  uuid : String
  title : String
  url : String
  file_type : String
  file_size : ℚ
  duration : ℚ
  published : String
  type : String
  image_url : Option String
deriving DecidableEq

/-- `interface Podcast` of `mod.ts`; `fundings : unknown[]` is modelled as a
list of opaque entries and `image_url` is optional. -/
structure Podcast where
  url : String
  title : String
  author : String
  description : String
  description_html : String
  category : String
  audio : Bool
  show_type : String
  uuid : String
  fundings : List Unit
  guid : String
  is_private : Bool
  transcript_eligible : Bool
  episodes : List Episode
  image_url : Option String
deriving DecidableEq

/-- `interface Root` of `mod.ts`.  The `podcast` field is an `Option` because
the runtime check `!podcastData.podcast` guards against JSON documents in
which it is absent or null. -/
structure RootDoc where
  episode_frequency : String
  estimated_next_episode_at : String
  has_seasons : Bool
  season_count : ℚ
  episode_count : ℚ
  has_more_episodes : Bool
  podcast : Option Podcast
deriving DecidableEq

/-- `interface LatestEpisode` of `mod.ts`; `transcripts : unknown[]` is a list
of opaque entries. -/
structure LatestEpisode where
  uuid : String
  title : String
  url : String
  published : String
  show_notes : String
  hash : String
  modified : ℚ
  image : String
  transcripts : List Unit
deriving DecidableEq

/-- `interface LatestPodcastData`; `episodes` is optional because the handler
checks `latestData?.podcast?.episodes` before using it. -/
structure LatestPodcastData where
  episodes : Option (List LatestEpisode)
deriving DecidableEq

/-- `interface LatestPodcastsRoot`; `podcast` is optional for the same
reason. -/
structure LatestPodcastsRoot where
  podcast : Option LatestPodcastData
deriving DecidableEq

/-- The configuration object passed to `new RSS({...})` in `convertToRSS`
(lines 80–111 of `mod.ts`), with the constant `custom_namespaces` omitted and
the `custom_elements` entries flattened into named fields. -/
structure FeedConfig where
  title : String
  description : String
  feed_url : String
  site_url : String
  image_url : String
  author : String
  language : String
  pubDate : String
  ttl : ℚ
  generator : String
  itunesAuthor : String
  itunesSummary : String
  itunesType : String
  itunesExplicit : String
  contentEncoded : String
  itunesCategory : String
  itunesImageHref : String
  imageUrl : String
  imageTitle : String
  imageLink : String
deriving DecidableEq

/-- One item object passed to `feed.item({...})` (lines 115–144 of `mod.ts`),
custom elements flattened into named fields.  `date` holds the raw
`episode.published` string handed to `new Date(...)` (date parsing is external
runtime behaviour). -/
structure FeedItem where
  title : String
  description : String
  url : String
  guid : String
  date : String
  enclosureUrl : String
  enclosureSize : ℚ
  enclosureType : String
  author : String
  itunesDuration : ℤ
  itunesEpisodeType : String
  itunesImageHref : String
  mediaContentUrl : String
  mediaContentMedium : String
  mediaContentType : String
deriving DecidableEq

/-- The structured feed value built by `convertToRSS` before the external
`feed.xml({indent: true})` serialization. -/
structure RSSFeedValue where
  config : FeedConfig
  items : List FeedItem
deriving DecidableEq

/-- The enrichment map built in the handler (line 192 of `mod.ts`):
`new Map(latestData.podcast.episodes.map(ep => [ep.uuid, ep]))`.  The `Map`
constructor inserts pairs in iteration order, a later pair with the same key
overwriting an earlier one. -/
def buildLatestEpisodesMap (eps : List LatestEpisode) : String → Option LatestEpisode :=
  eps.foldl (fun m ep => fun k => if k = ep.uuid then some ep else m k) (fun _ => none)

/-- The image lookup `latestEpisodesMap?.get(episode.uuid)?.image` used twice
in the item construction. -/
def lookupImage (latestEpisodesMap : Option (String → Option LatestEpisode))
    (episodeUuid : String) : Option String :=
  (latestEpisodesMap.bind fun m => m episodeUuid).map LatestEpisode.image

/-- The object passed to `feed.item({...})` for one episode of the selected
slice (lines 115–144 of `mod.ts`).  `Math.floor` on the duration is
`Rat.floor`; the image expression is
`latestEpisodesMap?.get(episode.uuid)?.image || podcast.image_url || ''`
(JS `||` is left associative). -/
def episodeToItem (podcast : Podcast)
    (latestEpisodesMap : Option (String → Option LatestEpisode))
    (episode : Episode) : FeedItem :=
  { title := episode.title
  , description := ""
  , url := episode.url
  , guid := episode.uuid
  , date := episode.published
  , enclosureUrl := episode.url
  , enclosureSize := episode.file_size
  , enclosureType := episode.file_type
  , author := podcast.author
  , itunesDuration := Rat.floor episode.duration
  , itunesEpisodeType := episode.type
  , itunesImageHref := jsOrStr (jsOrS (lookupImage latestEpisodesMap episode.uuid) podcast.image_url) ""
  , mediaContentUrl := jsOrStr (jsOrS (lookupImage latestEpisodesMap episode.uuid) podcast.image_url) ""
  , mediaContentMedium := "image"
  , mediaContentType := "image/jpeg" }

/-- The `new RSS({...})` configuration for a given podcast; `now` is the
string `new Date().toUTCString()` produced at conversion time. -/
def feedConfigOf (podcast : Podcast) (now : String) : FeedConfig :=
  { title := podcast.title
  , description := podcast.description
  , feed_url := podcast.url
  , site_url := podcast.url
  , image_url := jsOrStr podcast.image_url ""
  , author := podcast.author
  , language := "en-us"
  , pubDate := now
  , ttl := 60
  , generator := "Deno Podcast Converter (via npm:rss)"
  , itunesAuthor := podcast.author
  , itunesSummary := podcast.description
  , itunesType := podcast.show_type
  , itunesExplicit := "false"
  , contentEncoded := podcast.description_html
  , itunesCategory := podcast.category
  , itunesImageHref := jsOrStr podcast.image_url ""
  , imageUrl := jsOrStr podcast.image_url ""
  , imageTitle := podcast.title
  , imageLink := podcast.url }

/-- The feed value produced for a valid podcast: the configuration plus one
item per episode of
`podcast.episodes.slice(podcast.episodes.length - 10, podcast.episodes.length - 8)`. -/
def buildFeedValue (podcast : Podcast)
    (latestEpisodesMap : Option (String → Option LatestEpisode))
    (now : String) : RSSFeedValue :=
  { config := feedConfigOf podcast now
  , items :=
      (jsSlice podcast.episodes ((podcast.episodes.length : Int) - 10)
        ((podcast.episodes.length : Int) - 8)).map
        (episodeToItem podcast latestEpisodesMap) }

/-- `convertToRSS(podcastData, latestEpisodesMap)` (lines 72–149 of `mod.ts`).
The guard `if (!podcastData || !podcastData.podcast) throw new Error(...)` is
the `.error` branch carrying the thrown message. -/
def convertToRSS (podcastData : Option RootDoc)
    (latestEpisodesMap : Option (String → Option LatestEpisode))
    (now : String) : Except String RSSFeedValue :=
  match podcastData.bind RootDoc.podcast with
  | none => .error "Invalid podcast JSON structure"
  | some podcast => .ok (buildFeedValue podcast latestEpisodesMap now)

/-- Outcome of `fetch(url)` followed by `response.json()` for the primary
document: a rejected fetch, a non-ok response (only its `statusText` is
used), a JSON parse failure, or a parsed value (`none` models JSON `null`). -/
inductive PrimaryFetchResult where
  | fetchThrow (msg : String)
  | httpNotOk (statusText : String)
  | jsonThrow (msg : String)
  | jsonOk (doc : Option RootDoc)
deriving DecidableEq

/-- Outcome of `fetch`/`json` for the secondary (latest-episodes) document. -/
inductive SecondaryFetchResult where
  | fetchThrow (msg : String)
  | httpNotOk (statusText : String)
  | jsonThrow (msg : String)
  | jsonOk (doc : Option LatestPodcastsRoot)
deriving DecidableEq

/-- External JavaScript runtime functions used by the handler:
`decodeURIComponent` (which may throw `URIError`) and the two fetches. -/
structure JsEnv where
  decodeURIComponent : String → Except String String
  fetchPrimary : String → PrimaryFetchResult
  fetchSecondary : String → SecondaryFetchResult

/-- An incoming request, reduced to the pieces the handler reads:
`req.method`, `url.pathname`, and the two query parameters
(`searchParams.get` yields `null` for an absent parameter). -/
structure HttpRequest where
  method : String
  pathname : String
  urlParam : Option String
  latestPodcastsUrlParam : Option String
deriving DecidableEq

/-- A response body: either plain text or the XML serialization of a feed
value (the serializer `feed.xml` lives in the external `rss` package, so the
feed value itself is kept). -/
inductive BodyContent where
  | text (s : String)
  | rssXml (feed : RSSFeedValue)
deriving DecidableEq

/-- A `Response`: status, the explicitly set headers (`Content-Type` when
given; the `X-Podcast-Metadata` field records that header when it is set),
and the body. -/
structure HttpResponse where
  status : Nat
  contentType : Option String
  xPodcastMetadata : Option String
  body : BodyContent
deriving DecidableEq

/-- Decoding of the optional `latestPodcastsUrl` parameter (lines 168–171):
run only when the raw parameter is truthy, outside of any inner `try`, so a
`URIError` propagates to the outer catch. -/
def decodeLatestParam (req : HttpRequest) (env : JsEnv) : Except String (Option String) :=
  match req.latestPodcastsUrlParam with
  | none => .ok none
  | some p =>
    if p = "" then .ok none
    else
      match env.decodeURIComponent p with
      | .error e => .error e
      | .ok d => .ok (some d)

/-- The inner `try` of lines 181–201: fetch the secondary document and build
the enrichment map; every failure (rejected fetch, non-ok status, JSON parse
error, or a document without the `podcast.episodes` shape) is swallowed with
a console warning and yields no map. -/
def computeLatestMap (env : JsEnv) : Option String → Option (String → Option LatestEpisode)
  | none => none
  | some lu =>
    if lu = "" then none
    else
      match env.fetchSecondary lu with
      | .fetchThrow _ => none
      | .httpNotOk _ => none
      | .jsonThrow _ => none
      | .jsonOk doc =>
        match (doc.bind LatestPodcastsRoot.podcast).bind LatestPodcastData.episodes with
        | some eps => some (buildLatestEpisodesMap eps)
        | none => none

/-- The body of the outer `try` (lines 165–209): decode the URLs, fetch and
parse the primary document, build the optional enrichment map, convert, and
on success answer 200 with the feed and the single explicitly set
`Content-Type` header.  Any `.error` is handed to the catch clause. -/
def handlerTry (req : HttpRequest) (env : JsEnv) (now : String) (urlParam : String) :
    Except String HttpResponse :=
  match env.decodeURIComponent urlParam with
  | .error e => .error e
  | .ok podcastJsonUrl =>
    match decodeLatestParam req env with
    | .error e => .error e
    | .ok latestPodcastJsonUrl =>
      match env.fetchPrimary podcastJsonUrl with
      | .fetchThrow msg => .error msg
      | .httpNotOk st =>
        .error ("Failed to fetch podcast JSON: " ++ st ++ " from " ++ podcastJsonUrl)
      | .jsonThrow msg => .error msg
      | .jsonOk podcastData =>
        match convertToRSS podcastData (computeLatestMap env latestPodcastJsonUrl) now with
        | .error e => .error e
        | .ok rssFeed =>
          .ok { status := 200
              , contentType := some "application/rss+xml; charset=utf-8"
              , xPodcastMetadata := none
              , body := .rssXml rssFeed }

/-- `handler(req)` (lines 152–217 of `mod.ts`): 404 for any path other than
`/convert` (the method is never inspected), 400 for a missing or empty `url`
parameter, otherwise the `try` body with the catch clause turning a thrown
error into a 500 plain-text response. -/
def handler (req : HttpRequest) (env : JsEnv) (now : String) : HttpResponse :=
  if req.pathname ≠ "/convert" then
    { status := 404, contentType := none, xPodcastMetadata := none, body := .text "Not Found" }
  else
    match req.urlParam with
    | none =>
      { status := 400, contentType := none, xPodcastMetadata := none
      , body := .text "Missing required `url` query parameter" }
    | some u =>
      if u = "" then
        { status := 400, contentType := none, xPodcastMetadata := none
        , body := .text "Missing required `url` query parameter" }
      else
        match handlerTry req env now u with
        | .ok resp => resp
        | .error msg =>
          { status := 500, contentType := none, xPodcastMetadata := none
          , body := .text ("Failed to convert podcast JSON: " ++ msg) }

/-- Truncation of a rational toward zero to an integer, as the spec words the
duration mapping (`Int.tdiv` rounds toward zero). -/
def ratTruncTowardZero (q : ℚ) : ℤ :=
  q.num.tdiv (q.den : ℤ)

/-- Resolution of the podcast-level fallback image following the spec: the
podcast image URL if present and non-empty, else the empty string. -/
def specPodcastImage : Option String → String
  | some s => if s ≠ "" then s else ""
  | none => ""

/-- Spec-side image resolution (amended wording): the enrichment entry's
image if an entry is present and its image is non-empty, else the
podcast-level image if present and non-empty, else the empty string. -/
def specResolveImage (entry : Option LatestEpisode) (podcastImage : Option String) : String :=
  match entry with
  | some e => if e.image ≠ "" then e.image else specPodcastImage podcastImage
  | none => specPodcastImage podcastImage

/-- A placeholder episode used as the default of `List.getD`; never selected
when the index is in bounds. -/
def defEpisode : Episode :=
  { uuid := "", title := "", url := "", file_type := "", file_size := 0
  , duration := 0, published := "", type := "", image_url := none }

/-- Concrete episode number `i` of the sample catalog. -/
def sampleEpisode (i : Nat) : Episode :=
  { uuid := "u" ++ toString i
  , title := "Episode " ++ toString i
  , url := "https://example.com/ep" ++ toString i
  , file_type := "audio/mpeg"
  , file_size := 1000
  , duration := 300
  , published := "2024-01-01T00:00:00Z"
  , type := "full"
  , image_url := none }

/-- A sample podcast with exactly 10 episodes and a podcast-level image. -/
def samplePodcast : Podcast :=
  { url := "https://example.com"
  , title := "Sample Show"
  , author := "Alice"
  , description := "A sample feed"
  , description_html := "<p>A sample feed</p>"
  , category := "Technology"
  , audio := true
  , show_type := "episodic"
  , uuid := "pod-uuid"
  , fundings := []
  , guid := "pod-guid"
  , is_private := false
  , transcript_eligible := true
  , episodes := (List.range 10).map sampleEpisode
  , image_url := some "https://example.com/pod.jpg" }

/-- A valid sample primary document wrapping `samplePodcast`. -/
def sampleRoot : RootDoc :=
  { episode_frequency := "weekly"
  , estimated_next_episode_at := "2024-02-01T00:00:00Z"
  , has_seasons := false
  , season_count := 0
  , episode_count := 10
  , has_more_episodes := false
  , podcast := some samplePodcast }

/-- A primary document whose nested `podcast` object is missing. -/
def rootWithoutPodcast : RootDoc :=
  { sampleRoot with podcast := none }

/-- An enrichment entry for episode `u0` whose `image` field is the empty
string. -/
def emptyImageEntry : LatestEpisode :=
  { uuid := "u0", title := "Episode 0", url := "https://example.com/ep0"
  , published := "2024-01-01T00:00:00Z", show_notes := "", hash := "h0"
  , modified := 0, image := "", transcripts := [] }

/-- An enrichment map holding only the empty-image entry for `u0`. -/
def emptyImageMap : String → Option LatestEpisode :=
  fun k => if k = "u0" then some emptyImageEntry else none

/-- A catalog like `samplePodcast` whose oldest selected episode has the
negative duration `-1/2`. -/
def negDurationPodcast : Podcast :=
  { samplePodcast with
      episodes :=
        { sampleEpisode 0 with duration := mkRat (-1) 2 } ::
          (List.range 9).map (fun i => sampleEpisode (i + 1)) }

/-- A primary document wrapping `negDurationPodcast`. -/
def negDurationRoot : RootDoc :=
  { sampleRoot with podcast := some negDurationPodcast }

/-- An environment whose runtime functions all succeed: URL decoding is the
identity, the primary fetch parses to `sampleRoot`, and the secondary fetch
parses to a document without the expected shape. -/
def happyEnv : JsEnv :=
  { decodeURIComponent := fun s => .ok s
  , fetchPrimary := fun _ => .jsonOk (some sampleRoot)
  , fetchSecondary := fun _ => .jsonOk none }

/-- An environment whose secondary fetch answers a non-ok 500 response. -/
def secondaryFailEnv : JsEnv :=
  { decodeURIComponent := fun s => .ok s
  , fetchPrimary := fun _ => .jsonOk (some sampleRoot)
  , fetchSecondary := fun _ => .httpNotOk "Internal Server Error" }

/-- An environment whose primary fetch parses to a document without the
nested podcast object. -/
def noPodcastEnv : JsEnv :=
  { decodeURIComponent := fun s => .ok s
  , fetchPrimary := fun _ => .jsonOk (some rootWithoutPodcast)
  , fetchSecondary := fun _ => .jsonOk none }

/-- A plain GET request for `/convert` with a primary URL only. -/
def sampleRequest : HttpRequest :=
  { method := "GET", pathname := "/convert"
  , urlParam := some "https://example.com/podcast.json"
  , latestPodcastsUrlParam := none }

/-- The same request also asking for enrichment. -/
def enrichedRequest : HttpRequest :=
  { sampleRequest with
      latestPodcastsUrlParam := some "https://example.com/latest.json" }

/-- The predicate on a secondary fetch outcome that the claim calls failure:
rejected fetch, non-success status, malformed JSON, or a parsed document
lacking the `podcast.episodes` shape. -/
def secondaryFetchFails : SecondaryFetchResult → Prop
  | .fetchThrow _ => True
  | .httpNotOk _ => True
  | .jsonThrow _ => True
  | .jsonOk doc => (doc.bind LatestPodcastsRoot.podcast).bind LatestPodcastData.episodes = none

theorem resolve_eq_spec (entry : Option LatestEpisode) (pi : Option String) :
    jsOrStr (jsOrS (entry.map LatestEpisode.image) pi) "" = specResolveImage entry pi := by
  rcases entry with _ | e <;> rcases pi with _ | s <;>
    simp [jsOrS, jsOrStr, specResolveImage, specPodcastImage] <;>
    split_ifs <;> simp_all

theorem ratFloor_eq_trunc_of_nonneg (q : ℚ) (h : 0 ≤ q) :
    Rat.floor q = ratTruncTowardZero q := by
  have hnum : 0 ≤ q.num := Rat.num_nonneg.mpr h
  rw [Rat.floor_def']
  unfold ratTruncTowardZero
  exact (Int.tdiv_eq_ediv hnum (Int.natCast_nonneg q.den)).symm

/-- C6 counterexample: on a concrete feed whose selected episode `u0` has an
enrichment entry that is present but has an empty `image`, the emitted
itunes:image href is the podcast-level image, not the entry's (empty) image,
so mere presence of a map entry does not decide the priority. -/
theorem image_priority_presence_refuted :
    emptyImageMap "u0" = some emptyImageEntry ∧
    emptyImageEntry.image = "" ∧
    (convertToRSS (some sampleRoot) (some emptyImageMap) "now").map
        (fun out => out.items.map FeedItem.guid) = .ok ["u0", "u1"] ∧
    (convertToRSS (some sampleRoot) (some emptyImageMap) "now").map
        (fun out => out.items.map FeedItem.itunesImageHref) =
      .ok ["https://example.com/pod.jpg", "https://example.com/pod.jpg"] ∧
    ("https://example.com/pod.jpg" : String) ≠ "" := by
  decide

/-- C6 (amended): for every episode handed to the item builder, the
itunes:image href and the media:content url are the same value, resolved by
priority over non-empty values: the enrichment entry's image if an entry is
present and its image is non-empty, else the podcast-level image if present
and non-empty, else the empty string; the media:content element carries
medium "image" and a type fixed to "image/jpeg". -/
theorem item_image_resolution (pc : Podcast)
    (map? : Option (String → Option LatestEpisode)) (ep : Episode) :
    (episodeToItem pc map? ep).itunesImageHref =
        specResolveImage (map?.bind fun m => m ep.uuid) pc.image_url ∧
    (episodeToItem pc map? ep).mediaContentUrl =
        specResolveImage (map?.bind fun m => m ep.uuid) pc.image_url ∧
    (episodeToItem pc map? ep).mediaContentMedium = "image" ∧
    (episodeToItem pc map? ep).mediaContentType = "image/jpeg" := by
  refine ⟨?_, ?_, rfl, rfl⟩ <;> exact resolve_eq_spec (map?.bind fun m => m ep.uuid) pc.image_url

/-- C7 counterexample: on a concrete feed whose selected episode has duration
`-1/2`, the emitted itunes:duration is `-1` (`Math.floor`), while truncation
toward zero would give `0`, so the claimed truncation fails. -/
theorem duration_truncation_refuted :
    (convertToRSS (some negDurationRoot) none "now").map
        (fun out => out.items.map FeedItem.itunesDuration) = .ok [-1, 300] ∧
    ratTruncTowardZero (mkRat (-1) 2) = 0 ∧
    ((-1 : ℤ) ≠ 0) := by
  decide

/-- C7 (amended): the emitted itunes:duration is the floor of the duration
(rounding toward negative infinity); for every non-negative duration the
floor coincides with truncation toward zero, and in particular a duration of
125.9 seconds maps to itunes:duration 125. -/
theorem itunes_duration_is_floor (pc : Podcast)
    (map? : Option (String → Option LatestEpisode)) (ep : Episode) :
    (episodeToItem pc map? ep).itunesDuration = Rat.floor ep.duration ∧
    (0 ≤ ep.duration → Rat.floor ep.duration = ratTruncTowardZero ep.duration) ∧
    Rat.floor (125.9 : ℚ) = 125 := by
  refine ⟨rfl, fun h => ratFloor_eq_trunc_of_nonneg ep.duration h, ?_⟩
  have h : (125.9 : ℚ) = mkRat 1259 10 := by norm_num
  rw [h]
  decide

theorem itunes_duration_is_floor_witness :
    (0 : ℚ) ≤ (sampleEpisode 0).duration ∧
    Rat.floor (sampleEpisode 0).duration = ratTruncTowardZero (sampleEpisode 0).duration :=
  ⟨by decide, (itunes_duration_is_floor samplePodcast none (sampleEpisode 0)).2.1 (by decide)⟩

/-- C8: the enrichment map built from the secondary episode list answers, for
every uuid, the last entry of the list carrying that uuid — duplicates are
silently overwritten, last seen wins. -/
theorem buildLatestEpisodesMap_last_wins (eps : List LatestEpisode) (u : String) :
    buildLatestEpisodesMap eps u = (eps.filter fun e => e.uuid == u).getLast? := by
  induction eps using List.reverseRecOn with
  | nil => rfl
  | append_singleton l e ih =>
    unfold buildLatestEpisodesMap at ih ⊢
    rw [List.foldl_append, List.filter_append]
    simp only [List.foldl_cons, List.foldl_nil, List.filter_cons, List.filter_nil]
    by_cases h : e.uuid = u
    · simp [h, List.getLast?_concat]
    · have hb : (e.uuid == u) = false := by simp [h]
      have hu : ¬ (u = e.uuid) := fun hh => h hh.symm
      simp [hb, hu, ih]

/-- C9: for every valid primary document the feed-level title, description
and author of the produced configuration are the corresponding Podcast
fields, verbatim. -/
theorem feed_fields_verbatim (root : RootDoc) (pc : Podcast)
    (map? : Option (String → Option LatestEpisode)) (now : String)
    (hpc : root.podcast = some pc) :
    convertToRSS (some root) map? now = .ok (buildFeedValue pc map? now) ∧
    (buildFeedValue pc map? now).config.title = pc.title ∧
    (buildFeedValue pc map? now).config.description = pc.description ∧
    (buildFeedValue pc map? now).config.author = pc.author := by
  refine ⟨?_, rfl, rfl, rfl⟩
  unfold convertToRSS
  rw [show (some root).bind RootDoc.podcast = root.podcast from rfl, hpc]

theorem feed_fields_verbatim_witness :
    convertToRSS (some sampleRoot) none "now" = .ok (buildFeedValue samplePodcast none "now") ∧
    (buildFeedValue samplePodcast none "now").config.title = samplePodcast.title ∧
    (buildFeedValue samplePodcast none "now").config.description = samplePodcast.description ∧
    (buildFeedValue samplePodcast none "now").config.author = samplePodcast.author :=
  feed_fields_verbatim sampleRoot samplePodcast none "now" rfl

/-- C10: when the enrichment map has an entry for the episode's uuid whose
image is the empty string, both resolved image fields fall back to the
podcast-level image (or the empty string when that is absent): the priority
chain is over truthiness of values, not presence of a map entry. -/
theorem enrichment_empty_image_falls_back (pc : Podcast)
    (m : String → Option LatestEpisode) (ep : Episode) (entry : LatestEpisode)
    (hm : m ep.uuid = some entry) (himg : entry.image = "") :
    (episodeToItem pc (some m) ep).itunesImageHref = pc.image_url.getD "" ∧
    (episodeToItem pc (some m) ep).mediaContentUrl = pc.image_url.getD "" := by
  have hl : lookupImage (some m) ep.uuid = some "" := by
    unfold lookupImage
    rw [show (some m).bind (fun mm => mm ep.uuid) = m ep.uuid from rfl, hm]
    simp [himg]
  constructor <;>
    · show jsOrStr (jsOrS (lookupImage (some m) ep.uuid) pc.image_url) "" = pc.image_url.getD ""
      rw [hl]
      rcases pc.image_url with _ | s
      · simp [jsOrS, jsOrStr]
      · simp [jsOrS, jsOrStr]
        exact fun h => h.symm

theorem enrichment_empty_image_falls_back_witness :
    emptyImageMap (sampleEpisode 0).uuid = some emptyImageEntry ∧
    emptyImageEntry.image = "" ∧
    (episodeToItem samplePodcast (some emptyImageMap) (sampleEpisode 0)).itunesImageHref =
        samplePodcast.image_url.getD "" ∧
    (episodeToItem samplePodcast (some emptyImageMap) (sampleEpisode 0)).mediaContentUrl =
        samplePodcast.image_url.getD "" := by
  exact ⟨by decide, rfl,
    (enrichment_empty_image_falls_back samplePodcast emptyImageMap (sampleEpisode 0)
      emptyImageEntry (by decide) rfl).1,
    (enrichment_empty_image_falls_back samplePodcast emptyImageMap (sampleEpisode 0)
      emptyImageEntry (by decide) rfl).2⟩

theorem jsSlice_window {α : Type} (l : List α) (d : α) (h : 10 ≤ l.length) :
    jsSlice l ((l.length : Int) - 10) ((l.length : Int) - 8) =
      [l.getD (l.length - 10) d, l.getD (l.length - 9) d] := by
  have h10 : jsSliceBound l.length ((l.length : Int) - 10) = l.length - 10 := by
    unfold jsSliceBound; split <;> omega
  have h8 : jsSliceBound l.length ((l.length : Int) - 8) = l.length - 8 := by
    unfold jsSliceBound; split <;> omega
  unfold jsSlice
  rw [h10, h8, List.drop_take]
  have hc : l.length - 8 - (l.length - 10) = 2 := by omega
  rw [hc]
  have hlt10 : l.length - 10 < l.length := by omega
  have hlt9 : l.length - 9 < l.length := by omega
  rw [List.drop_eq_getElem_cons hlt10]
  have h91 : l.length - 10 + 1 = l.length - 9 := by omega
  rw [h91, List.drop_eq_getElem_cons hlt9]
  rw [List.getD_eq_getElem l d hlt10, List.getD_eq_getElem l d hlt9]
  rfl

/-- C1: for every valid primary document with at least 10 episodes, the
conversion emits exactly the two items built from the episodes at 0-based
positions `length - 10` and `length - 9` of the episodes sequence, in that
order. -/
theorem convert_emits_two_items (root : RootDoc) (pc : Podcast)
    (map? : Option (String → Option LatestEpisode)) (now : String)
    (hpc : root.podcast = some pc) (hlen : 10 ≤ pc.episodes.length) :
    convertToRSS (some root) map? now =
      .ok { config := feedConfigOf pc now
          , items :=
              [ episodeToItem pc map?
                  (pc.episodes.getD (pc.episodes.length - 10) defEpisode)
              , episodeToItem pc map?
                  (pc.episodes.getD (pc.episodes.length - 9) defEpisode) ] } := by
  unfold convertToRSS
  rw [show (some root).bind RootDoc.podcast = root.podcast from rfl, hpc]
  change Except.ok (buildFeedValue pc map? now) = _
  unfold buildFeedValue
  rw [jsSlice_window pc.episodes defEpisode hlen]
  rfl

theorem convert_emits_two_items_witness :
    sampleRoot.podcast = some samplePodcast ∧
    10 ≤ samplePodcast.episodes.length ∧
    convertToRSS (some sampleRoot) none "Thu, 01 Feb 2024 00:00:00 GMT" =
      .ok { config := feedConfigOf samplePodcast "Thu, 01 Feb 2024 00:00:00 GMT"
          , items :=
              [ episodeToItem samplePodcast none
                  (samplePodcast.episodes.getD (samplePodcast.episodes.length - 10) defEpisode)
              , episodeToItem samplePodcast none
                  (samplePodcast.episodes.getD (samplePodcast.episodes.length - 9) defEpisode) ] } :=
  ⟨rfl, by decide,
    convert_emits_two_items sampleRoot samplePodcast none "Thu, 01 Feb 2024 00:00:00 GMT"
      rfl (by decide)⟩

/-- C2: on a successful request the code answers 200 with
Content-Type `application/rss+xml; charset=utf-8` as its only explicitly set
header; the X-Podcast-Metadata header documented in the README is never set. -/
theorem success_sets_no_metadata_header :
    (handler sampleRequest happyEnv "now").status = 200 ∧
    (handler sampleRequest happyEnv "now").contentType =
      some "application/rss+xml; charset=utf-8" ∧
    (handler sampleRequest happyEnv "now").xPodcastMetadata = none :=
  ⟨rfl, rfl, rfl⟩

/-- C3: for every fetched document that is absent (JSON null) or lacks the
nested podcast object, the conversion fails with the error message
"Invalid podcast JSON structure" regardless of the other fields and of any
enrichment map, and the handler surfaces this failure as a 500 response. -/
theorem invalid_structure_error_and_500 (req : HttpRequest) (env : JsEnv)
    (now u pu : String) (doc : Option RootDoc)
    (map? : Option (String → Option LatestEpisode))
    (hpath : req.pathname = "/convert")
    (hu : req.urlParam = some u) (hne : u ≠ "")
    (hlp : req.latestPodcastsUrlParam = none)
    (hdec : env.decodeURIComponent u = .ok pu)
    (hfetch : env.fetchPrimary pu = .jsonOk doc)
    (hbad : doc.bind RootDoc.podcast = none) :
    convertToRSS doc map? now = .error "Invalid podcast JSON structure" ∧
    handler req env now =
      { status := 500, contentType := none, xPodcastMetadata := none
      , body := .text "Failed to convert podcast JSON: Invalid podcast JSON structure" } := by
  have hconv : ∀ mm, convertToRSS doc mm now = .error "Invalid podcast JSON structure" := by
    intro mm
    unfold convertToRSS
    rw [hbad]
  refine ⟨hconv map?, ?_⟩
  unfold handler
  rw [if_neg (by simp [hpath]), hu]
  simp only []
  rw [if_neg hne]
  unfold handlerTry
  rw [hdec]
  unfold decodeLatestParam
  rw [hlp]
  simp only []
  rw [hfetch]
  simp only []
  rw [hconv]
  rfl

theorem invalid_structure_witness :
    convertToRSS (some rootWithoutPodcast) none "now" =
      .error "Invalid podcast JSON structure" ∧
    handler sampleRequest noPodcastEnv "now" =
      { status := 500, contentType := none, xPodcastMetadata := none
      , body := .text "Failed to convert podcast JSON: Invalid podcast JSON structure" } :=
  invalid_structure_error_and_500 sampleRequest noPodcastEnv "now"
    "https://example.com/podcast.json" "https://example.com/podcast.json"
    (some rootWithoutPodcast) none rfl rfl (by decide) rfl rfl rfl rfl

/-- C4 counterexample: a POST to /convert is not answered 404 — with the
`url` parameter missing it is answered 400, because the handler never
inspects the request method. -/
theorem post_convert_not_404 :
    (handler { method := "POST", pathname := "/convert", urlParam := none
             , latestPodcastsUrlParam := none } happyEnv "now").status = 400 ∧
    (handler { method := "POST", pathname := "/convert", urlParam := none
             , latestPodcastsUrlParam := none } happyEnv "now").status ≠ 404 := by
  decide

/-- C4 (amended): only the request path is checked — every request whose
path differs from /convert is answered 404, and the handler's answer never
depends on the request method, so a POST to /convert is processed exactly
like a GET. -/
theorem only_path_checked (req : HttpRequest) (env : JsEnv) (now m : String) :
    (req.pathname ≠ "/convert" →
      handler req env now =
        { status := 404, contentType := none, xPodcastMetadata := none
        , body := .text "Not Found" }) ∧
    handler req env now = handler { req with method := m } env now := by
  constructor
  · intro h
    unfold handler
    rw [if_pos h]
  · rfl

theorem only_path_checked_witness :
    ({ method := "GET", pathname := "/other", urlParam := none
     , latestPodcastsUrlParam := none } : HttpRequest).pathname ≠ "/convert" ∧
    handler { method := "GET", pathname := "/other", urlParam := none
            , latestPodcastsUrlParam := none } happyEnv "now" =
      { status := 404, contentType := none, xPodcastMetadata := none
      , body := .text "Not Found" } :=
  ⟨by decide,
    (only_path_checked { method := "GET", pathname := "/other", urlParam := none
                       , latestPodcastsUrlParam := none } happyEnv "now" "GET").1 (by decide)⟩

/-- C5: whenever the secondary (latest-episodes) fetch fails in any way —
rejected fetch, non-success status, malformed JSON, or a document without
the `podcast.episodes` shape — the failure is swallowed, the conversion
proceeds with no enrichment map (so episode images use the podcast-level
fallback), and the caller still receives the successful 200 feed response. -/
theorem secondary_failure_swallowed (req : HttpRequest) (env : JsEnv)
    (now u pu p lu : String) (root : RootDoc) (pc : Podcast)
    (hpath : req.pathname = "/convert")
    (hu : req.urlParam = some u) (hune : u ≠ "")
    (hdecu : env.decodeURIComponent u = .ok pu)
    (hp : req.latestPodcastsUrlParam = some p) (hpne : p ≠ "")
    (hdecp : env.decodeURIComponent p = .ok lu) (hlune : lu ≠ "")
    (hfail : secondaryFetchFails (env.fetchSecondary lu))
    (hfetch : env.fetchPrimary pu = .jsonOk (some root))
    (hpc : root.podcast = some pc) :
    handler req env now =
      { status := 200
      , contentType := some "application/rss+xml; charset=utf-8"
      , xPodcastMetadata := none
      , body := .rssXml (buildFeedValue pc none now) } := by
  have hmap : computeLatestMap env (some lu) = none := by
    simp only [computeLatestMap]
    rw [if_neg hlune]
    rcases hsec : env.fetchSecondary lu with msg | st | msg | doc
    · rfl
    · rfl
    · rfl
    · have hShape : (doc.bind LatestPodcastsRoot.podcast).bind LatestPodcastData.episodes = none := by
        have h2 := hfail
        rw [hsec] at h2
        exact h2
      change (match (doc.bind LatestPodcastsRoot.podcast).bind LatestPodcastData.episodes with
          | some eps => some (buildLatestEpisodesMap eps)
          | none => none) = none
      rw [hShape]
  have hconv : convertToRSS (some root) none now = .ok (buildFeedValue pc none now) := by
    unfold convertToRSS
    rw [show (some root).bind RootDoc.podcast = root.podcast from rfl, hpc]
  unfold handler
  rw [if_neg (by simp [hpath]), hu]
  simp only []
  rw [if_neg hune]
  unfold handlerTry
  rw [hdecu]
  unfold decodeLatestParam
  rw [hp]
  simp only []
  rw [if_neg hpne, hdecp]
  simp only []
  rw [hfetch]
  simp only []
  rw [hmap, hconv]

theorem secondary_failure_swallowed_witness :
    secondaryFetchFails
      (secondaryFailEnv.fetchSecondary "https://example.com/latest.json") ∧
    handler enrichedRequest secondaryFailEnv "now" =
      { status := 200
      , contentType := some "application/rss+xml; charset=utf-8"
      , xPodcastMetadata := none
      , body := .rssXml (buildFeedValue samplePodcast none "now") } :=
  ⟨trivial,
    secondary_failure_swallowed enrichedRequest secondaryFailEnv "now"
      "https://example.com/podcast.json" "https://example.com/podcast.json"
      "https://example.com/latest.json" "https://example.com/latest.json"
      sampleRoot samplePodcast rfl rfl (by decide) rfl rfl (by decide) rfl (by decide)
      trivial rfl rfl⟩
